import Mathlib

/-!
Shallow embedding of `src/desktop/src-tauri/src/main.rs` from the
`weather_predictor` repository.

The source is a thin Tauri desktop shell exposing two commands:

* `get_weather_prediction` — POSTs a JSON-encoded `PredictionRequest` to
  `http://localhost:8000/predict` and decodes the body as `ApiResponse`;
* `check_backend_health` — GETs `http://localhost:8000/health` and maps the
  status to a fixed success string or an error string.

Modelling choices:

* JSON documents are the inductive `Json`; JSON numbers are modelled as `Rat`
  (the program performs no arithmetic on them, it only forwards them, so any
  exact number type is a faithful carrier for "the number written in the JSON
  body").
* The HTTP client is an oracle `net : HttpRequest → SendResult` supplied as a
  parameter; each command also returns the list of requests it issued, so that
  "exactly one request, never retried" is a statement about the embedding.
* `response.json::<ApiResponse>()` is modelled in two stages: a response body
  is `Option Json` (`none` = body is not valid JSON at all), and
  `decodeApiResponse` mirrors serde's derived `Deserialize`, requiring every
  struct field to be present with the right shape (extra fields ignored).
* Rust's `Display` for `reqwest::StatusCode` prints the decimal status code
  (followed by a canonical reason phrase); we model the decimal code, which is
  the part every claim concerns.
* The detail text of a reqwest body-decode error is modelled by the fixed
  string `decodeErrDetail`; the claims only concern its classifying head
  `"Failed to parse response: "`.
-/

/-- JSON values. Numbers are carried exactly as rationals. -/
inductive Json where
  | num (q : Rat)
  | str (s : String)
  | jbool (b : Bool)
  | jnull
  | arr (xs : List Json)
  | obj (fields : List (String × Json))

/-- Field lookup in a JSON object (first binding wins), `none` on non-objects. -/
def Json.getField (j : Json) (k : String) : Option Json :=
  match j with
  | .obj fs => fs.lookup k
  | _ => none

/-- Read a JSON value as a number. -/
def Json.asNum : Json → Option Rat
  | .num q => some q
  | _ => none

/-- Read a JSON value as a string. -/
def Json.asStr : Json → Option String
  | .str s => some s
  | _ => none

/-- Numeric field of a JSON object. -/
def Json.getNum (j : Json) (k : String) : Option Rat :=
  (j.getField k).bind Json.asNum

/-- String field of a JSON object. -/
def Json.getStr (j : Json) (k : String) : Option String :=
  (j.getField k).bind Json.asStr

/-- Mirror of the Rust struct `WeatherPrediction` (five `f64` fields). -/
structure WeatherPrediction where
  very_hot : Rat
  very_cold : Rat
  very_windy : Rat
  very_wet : Rat
  very_uncomfortable : Rat

/-- Mirror of the Rust struct `PredictionRequest`. -/
structure PredictionRequest where
  temperature : Rat
  humidity : Rat
  wind_speed : Rat
  pressure : Rat
  activity : String

/-- Mirror of the Rust struct `ApiResponse`. -/
structure ApiResponse where
  prediction : WeatherPrediction
  activity_risk : String
  recommendation : String
  timestamp : String

/-- Serde-derived decoding of `WeatherPrediction` from JSON: all five numeric
fields must be present. -/
def decodeWeatherPrediction (j : Json) : Option WeatherPrediction :=
  match j.getNum "very_hot", j.getNum "very_cold", j.getNum "very_windy",
        j.getNum "very_wet", j.getNum "very_uncomfortable" with
  | some vh, some vc, some vw, some vt, some vu =>
      some ⟨vh, vc, vw, vt, vu⟩
  | _, _, _, _, _ => none

/-- Serde-derived decoding of `ApiResponse` from JSON: the nested `prediction`
object and the three string fields must all be present. -/
def decodeApiResponse (j : Json) : Option ApiResponse :=
  match (j.getField "prediction").bind decodeWeatherPrediction,
        j.getStr "activity_risk", j.getStr "recommendation",
        j.getStr "timestamp" with
  | some pred, some ar, some rc, some ts => some ⟨pred, ar, rc, ts⟩
  | _, _, _, _ => none

/-- Serde-derived encoding of `PredictionRequest` to JSON, field for field in
declaration order, exactly as `.json(&request_data)` serializes it. -/
def encodePredictionRequest (r : PredictionRequest) : Json :=
  .obj [("temperature", .num r.temperature),
        ("humidity", .num r.humidity),
        ("wind_speed", .num r.wind_speed),
        ("pressure", .num r.pressure),
        ("activity", .str r.activity)]

/-- HTTP method of a request the shell issues. -/
inductive Method where
  | get
  | post

/-- An outbound HTTP request: method, URL and optional JSON body. -/
structure HttpRequest where
  method : Method
  url : String
  reqBody : Option Json

/-- An HTTP response: numeric status and a body that may or may not be valid
JSON (`none` = not valid JSON). -/
structure HttpResponse where
  status : Nat
  respBody : Option Json

/-- Outcome of `send()`: a response, or a transport error with its message. -/
inductive SendResult where
  | ok (resp : HttpResponse)
  | err (msg : String)

/-- The network oracle standing for the HTTP client plus the backend. -/
abbrev Net := HttpRequest → SendResult

/-- Mirror of `reqwest::StatusCode::is_success`: 2xx statuses. -/
def isSuccess (status : Nat) : Bool := 200 ≤ status && status < 300

/-- Model of `Display` for the status code: its decimal digits (reqwest also
appends a canonical reason phrase; the digits are what the claims concern). -/
def statusDisplay (status : Nat) : String := toString status

/-- Fixed model of the detail text of a reqwest body-decode error. -/
def decodeErrDetail : String := "error decoding response body"

/-- The request `get_weather_prediction` builds from its arguments. -/
def predictRequest (r : PredictionRequest) : HttpRequest :=
  ⟨.post, "http://localhost:8000/predict", some (encodePredictionRequest r)⟩

/-- The request `check_backend_health` issues. -/
def healthRequest : HttpRequest :=
  ⟨.get, "http://localhost:8000/health", none⟩

/-- Embedding of the Tauri command `get_weather_prediction`. Returns the
command's `Result` and the list of HTTP requests issued during the call. -/
def get_weather_prediction (net : Net)
    (temperature humidity wind_speed pressure : Rat) (activity : String) :
    Except String ApiResponse × List HttpRequest :=
  let request_data : PredictionRequest :=
    ⟨temperature, humidity, wind_speed, pressure, activity⟩
  let req := predictRequest request_data
  match net req with
  | .err e => (.error ("Failed to send request: " ++ e), [req])
  | .ok response =>
    if isSuccess response.status then
      match response.respBody.bind decodeApiResponse with
      | some api_response => (.ok api_response, [req])
      | none => (.error ("Failed to parse response: " ++ decodeErrDetail), [req])
    else
      (.error ("API request failed with status: " ++ statusDisplay response.status),
       [req])

/-- Embedding of the Tauri command `check_backend_health`. Returns the
command's `Result` and the list of HTTP requests issued during the call. -/
def check_backend_health (net : Net) : Except String String × List HttpRequest :=
  match net healthRequest with
  | .ok response =>
    if isSuccess response.status then
      (.ok "Backend is running", [healthRequest])
    else
      (.error ("Backend returned status: " ++ statusDisplay response.status),
       [healthRequest])
  | .err e => (.error ("Cannot connect to backend: " ++ e), [healthRequest])

/-- Numeric field of the nested `prediction` object of a JSON body. -/
def predictionNum (j : Json) (k : String) : Option Rat :=
  (j.getField "prediction").bind (fun pj => pj.getNum k)

/-- Inversion for `decodeWeatherPrediction`: a successful decode pins every
numeric field of the result to the corresponding JSON field. -/
lemma decodeWeatherPrediction_fields {j : Json} {w : WeatherPrediction}
    (h : decodeWeatherPrediction j = some w) :
    j.getNum "very_hot" = some w.very_hot ∧
    j.getNum "very_cold" = some w.very_cold ∧
    j.getNum "very_windy" = some w.very_windy ∧
    j.getNum "very_wet" = some w.very_wet ∧
    j.getNum "very_uncomfortable" = some w.very_uncomfortable := by
  unfold decodeWeatherPrediction at h
  split at h
  · rename_i vh vc vw vt vu h1 h2 h3 h4 h5
    cases h
    exact ⟨h1, h2, h3, h4, h5⟩
  · simp at h

/-- Inversion for `decodeApiResponse`: a successful decode pins every field of
the result to the corresponding JSON field. -/
lemma decodeApiResponse_fields {j : Json} {api : ApiResponse}
    (h : decodeApiResponse j = some api) :
    (j.getField "prediction").bind decodeWeatherPrediction = some api.prediction ∧
    j.getStr "activity_risk" = some api.activity_risk ∧
    j.getStr "recommendation" = some api.recommendation ∧
    j.getStr "timestamp" = some api.timestamp := by
  unfold decodeApiResponse at h
  split at h
  · rename_i pred ar rc ts h1 h2 h3 h4
    cases h
    exact ⟨h1, h2, h3, h4⟩
  · simp at h

/-- The request log of `get_weather_prediction` is the single built request,
on every path. -/
lemma get_weather_prediction_requests (net : Net)
    (t hu w p : Rat) (a : String) :
    (get_weather_prediction net t hu w p a).2 = [predictRequest ⟨t, hu, w, p, a⟩] := by
  unfold get_weather_prediction
  rcases hn : net (predictRequest ⟨t, hu, w, p, a⟩) with resp | e
  · cases hs : isSuccess resp.status
    · simp [hn, hs]
    · cases hb : resp.respBody.bind decodeApiResponse <;> simp [hn, hs, hb]
  · simp [hn]

/-- The request log of `check_backend_health` is the single health request,
on every path. -/
lemma check_backend_health_requests (net : Net) :
    (check_backend_health net).2 = [healthRequest] := by
  unfold check_backend_health
  rcases hn : net healthRequest with resp | e
  · cases hs : isSuccess resp.status <;> simp [hn, hs]
  · simp [hn]

/-- Characters of a concatenation of strings. -/
lemma string_toList_append (s t : String) : (s ++ t).toList = s.toList ++ t.toList :=
  String.data_append s t

/-- Two prefixes of one list are comparable: one is a prefix of the other. -/
lemma prefixes_comparable {α : Type} {p q t : List α}
    (hp : p <+: t) (hq : q <+: t) : p <+: q ∨ q <+: p := by
  rcases le_total p.length q.length with h | h
  · left
    have hp2 := List.prefix_iff_eq_take.mp hp
    have hq2 := List.prefix_iff_eq_take.mp hq
    rw [List.prefix_iff_eq_take, hq2, List.take_take, min_eq_left h, ← hp2]
  · right
    have hp2 := List.prefix_iff_eq_take.mp hp
    have hq2 := List.prefix_iff_eq_take.mp hq
    rw [List.prefix_iff_eq_take, hp2, List.take_take, min_eq_left h, ← hq2]

/-- A list that is a prefix of neither direction of `q` is not a prefix of any
extension `q ++ r`. -/
lemma not_prefix_append_of {p q : List Char} (r : List Char)
    (h1 : ¬ p <+: q) (h2 : ¬ q <+: p) : ¬ p <+: q ++ r := by
  intro hp
  rcases prefixes_comparable hp (List.prefix_append q r) with h | h
  · exact h1 h
  · exact h2 h

/-- C5: if the HTTP send itself fails, `get_weather_prediction` returns the
transport error (with the send-failure message) and `check_backend_health`
returns the connectivity error; neither returns a success value. -/
theorem unreachable_backend_errors (net1 net2 : Net)
    (t hu w p : Rat) (a : String) (e1 e2 : String)
    (h1 : net1 (predictRequest ⟨t, hu, w, p, a⟩) = .err e1)
    (h2 : net2 healthRequest = .err e2) :
    (get_weather_prediction net1 t hu w p a).1 =
      .error ("Failed to send request: " ++ e1) ∧
    (∀ v, (get_weather_prediction net1 t hu w p a).1 ≠ .ok v) ∧
    (check_backend_health net2).1 = .error ("Cannot connect to backend: " ++ e2) ∧
    (∀ v, (check_backend_health net2).1 ≠ .ok v) := by
  have hg : (get_weather_prediction net1 t hu w p a).1 =
      .error ("Failed to send request: " ++ e1) := by
    unfold get_weather_prediction
    simp [h1]
  have hc : (check_backend_health net2).1 =
      .error ("Cannot connect to backend: " ++ e2) := by
    unfold check_backend_health
    simp [h2]
  refine ⟨hg, ?_, hc, ?_⟩
  · intro v hv
    rw [hg] at hv
    exact Except.noConfusion hv
  · intro v hv
    rw [hc] at hv
    exact Except.noConfusion hv

/-- C5 witness at a concrete refused connection. -/
theorem unreachable_backend_errors_witness :
    (get_weather_prediction (fun _ => .err "connection refused") 1 2 3 4 "hiking").1 =
      .error ("Failed to send request: " ++ "connection refused") ∧
    (∀ v, (get_weather_prediction (fun _ => .err "connection refused") 1 2 3 4 "hiking").1 ≠
      .ok v) ∧
    (check_backend_health (fun _ => .err "connection refused")).1 =
      .error ("Cannot connect to backend: " ++ "connection refused") ∧
    (∀ v, (check_backend_health (fun _ => .err "connection refused")).1 ≠ .ok v) :=
  unreachable_backend_errors (fun _ => .err "connection refused")
    (fun _ => .err "connection refused") 1 2 3 4 "hiking"
    "connection refused" "connection refused" rfl rfl

/-- C6: no local validation of the five inputs: every rational value and every
activity string is accepted, and the one issued request is a POST to the
predict endpoint whose body is exactly the JSON encoding of the five fields. -/
theorem request_body_is_verbatim_encoding (net : Net)
    (t hu w p : Rat) (a : String) :
    (get_weather_prediction net t hu w p a).2 =
      [⟨.post, "http://localhost:8000/predict",
        some (Json.obj [("temperature", .num t), ("humidity", .num hu),
                        ("wind_speed", .num w), ("pressure", .num p),
                        ("activity", .str a)])⟩] :=
  get_weather_prediction_requests net t hu w p a

/-- C7: each invocation of either command issues exactly one HTTP request,
whatever the outcome. -/
theorem exactly_one_request_per_call (net1 net2 : Net)
    (t hu w p : Rat) (a : String) :
    ((get_weather_prediction net1 t hu w p a).2).length = 1 ∧
    ((check_backend_health net2).2).length = 1 := by
  rw [get_weather_prediction_requests, check_backend_health_requests]
  exact ⟨rfl, rfl⟩

/-- C8: both commands are total over every network outcome: the result is
always either a success value or an error string. -/
theorem commands_total (net1 net2 : Net) (t hu w p : Rat) (a : String) :
    ((∃ v, (get_weather_prediction net1 t hu w p a).1 = .ok v) ∨
     (∃ s, (get_weather_prediction net1 t hu w p a).1 = .error s)) ∧
    ((∃ v, (check_backend_health net2).1 = .ok v) ∨
     (∃ s, (check_backend_health net2).1 = .error s)) := by
  constructor
  · rcases hg : (get_weather_prediction net1 t hu w p a).1 with s | v
    · exact Or.inr ⟨s, rfl⟩
    · exact Or.inl ⟨v, rfl⟩
  · rcases hc : (check_backend_health net2).1 with s | v
    · exact Or.inr ⟨s, rfl⟩
    · exact Or.inl ⟨v, rfl⟩

/-- C9: the health check's result depends only on the transport outcome and
the response status, never on the response body: two responses with equal
status yield identical results. -/
theorem health_ignores_body (net1 net2 : Net) (r1 r2 : HttpResponse)
    (h1 : net1 healthRequest = .ok r1) (h2 : net2 healthRequest = .ok r2)
    (hs : r1.status = r2.status) :
    check_backend_health net1 = check_backend_health net2 := by
  obtain ⟨s1, b1⟩ := r1
  obtain ⟨s2, b2⟩ := r2
  simp only at hs
  subst hs
  unfold check_backend_health
  rw [h1, h2]

/-- C9 witness: same status 200, one body valid JSON and one not. -/
theorem health_ignores_body_witness :
    check_backend_health (fun _ => .ok ⟨200, some (Json.obj [])⟩) =
    check_backend_health (fun _ => .ok ⟨200, none⟩) :=
  health_ignores_body (fun _ => .ok ⟨200, some (Json.obj [])⟩)
    (fun _ => .ok ⟨200, none⟩) ⟨200, some (Json.obj [])⟩ ⟨200, none⟩ rfl rfl rfl

/-- A well-formed backend body used as a concrete witness input. -/
def sampleBody : Json :=
  .obj [("prediction",
          .obj [("very_hot", .num 1), ("very_cold", .num 2),
                ("very_windy", .num 3), ("very_wet", .num 4),
                ("very_uncomfortable", .num 5)]),
        ("activity_risk", .str "low"),
        ("recommendation", .str "go"),
        ("timestamp", .str "2025-01-01T00:00:00Z")]

/-- The decoded form of `sampleBody`. -/
def sampleApi : ApiResponse :=
  ⟨⟨1, 2, 3, 4, 5⟩, "low", "go", "2025-01-01T00:00:00Z"⟩

/-- A malformed backend body: the `activity_risk` field is missing. -/
def missingRiskBody : Json :=
  .obj [("prediction",
          .obj [("very_hot", .num 1), ("very_cold", .num 2),
                ("very_windy", .num 3), ("very_wet", .num 4),
                ("very_uncomfortable", .num 5)]),
        ("recommendation", .str "go"),
        ("timestamp", .str "2025-01-01T00:00:00Z")]

/-- C1: on a success status with a body decoding as `ApiResponse`, the command
returns exactly the decoded value, and each of the five prediction fields is
exactly the number in the backend's JSON body — no transformation, no
clamping. -/
theorem prediction_returns_backend_values (net : Net)
    (t hu w p : Rat) (a : String) (resp : HttpResponse) (j : Json)
    (api : ApiResponse)
    (hnet : net (predictRequest ⟨t, hu, w, p, a⟩) = .ok resp)
    (hst : isSuccess resp.status = true)
    (hbody : resp.respBody = some j)
    (hdec : decodeApiResponse j = some api) :
    (get_weather_prediction net t hu w p a).1 = .ok api ∧
    predictionNum j "very_hot" = some api.prediction.very_hot ∧
    predictionNum j "very_cold" = some api.prediction.very_cold ∧
    predictionNum j "very_windy" = some api.prediction.very_windy ∧
    predictionNum j "very_wet" = some api.prediction.very_wet ∧
    predictionNum j "very_uncomfortable" = some api.prediction.very_uncomfortable := by
  have hres : (get_weather_prediction net t hu w p a).1 = .ok api := by
    unfold get_weather_prediction
    simp [hnet, hst, hbody, hdec]
  have hpred := (decodeApiResponse_fields hdec).1
  rcases Option.bind_eq_some.mp hpred with ⟨pj, hpj, hdw⟩
  have hf := decodeWeatherPrediction_fields hdw
  refine ⟨hres, ?_, ?_, ?_, ?_, ?_⟩
  · simpa [predictionNum, hpj] using hf.1
  · simpa [predictionNum, hpj] using hf.2.1
  · simpa [predictionNum, hpj] using hf.2.2.1
  · simpa [predictionNum, hpj] using hf.2.2.2.1
  · simpa [predictionNum, hpj] using hf.2.2.2.2

/-- C1 witness at a concrete backend response. -/
theorem prediction_returns_backend_values_witness :
    (get_weather_prediction (fun _ => .ok ⟨200, some sampleBody⟩)
      1 2 3 4 "hiking").1 = .ok sampleApi ∧
    predictionNum sampleBody "very_hot" = some sampleApi.prediction.very_hot ∧
    predictionNum sampleBody "very_cold" = some sampleApi.prediction.very_cold ∧
    predictionNum sampleBody "very_windy" = some sampleApi.prediction.very_windy ∧
    predictionNum sampleBody "very_wet" = some sampleApi.prediction.very_wet ∧
    predictionNum sampleBody "very_uncomfortable" =
      some sampleApi.prediction.very_uncomfortable :=
  prediction_returns_backend_values (fun _ => .ok ⟨200, some sampleBody⟩)
    1 2 3 4 "hiking" ⟨200, some sampleBody⟩ sampleBody sampleApi rfl rfl rfl rfl

/-- C2: on a success status whose body does not decode as `ApiResponse`, the
command returns the parse-failure error and never a success value. -/
theorem malformed_body_yields_parse_error (net : Net)
    (t hu w p : Rat) (a : String) (resp : HttpResponse)
    (hnet : net (predictRequest ⟨t, hu, w, p, a⟩) = .ok resp)
    (hst : isSuccess resp.status = true)
    (hdec : resp.respBody.bind decodeApiResponse = none) :
    (get_weather_prediction net t hu w p a).1 =
      .error ("Failed to parse response: " ++ decodeErrDetail) ∧
    ∀ api, (get_weather_prediction net t hu w p a).1 ≠ .ok api := by
  have hres : (get_weather_prediction net t hu w p a).1 =
      .error ("Failed to parse response: " ++ decodeErrDetail) := by
    unfold get_weather_prediction
    simp [hnet, hst, hdec]
  refine ⟨hres, ?_⟩
  intro api hv
  rw [hres] at hv
  exact Except.noConfusion hv

/-- C2 witness: a success status with a body missing `activity_risk`. -/
theorem malformed_body_yields_parse_error_witness :
    (get_weather_prediction (fun _ => .ok ⟨200, some missingRiskBody⟩)
      1 2 3 4 "hiking").1 =
      .error ("Failed to parse response: " ++ decodeErrDetail) ∧
    ∀ api, (get_weather_prediction (fun _ => .ok ⟨200, some missingRiskBody⟩)
      1 2 3 4 "hiking").1 ≠ .ok api :=
  malformed_body_yields_parse_error (fun _ => .ok ⟨200, some missingRiskBody⟩)
    1 2 3 4 "hiking" ⟨200, some missingRiskBody⟩ rfl rfl rfl

/-- C3: a non-success HTTP status makes `get_weather_prediction` return an
error string that embeds the decimal status code. -/
theorem non_success_status_error (net : Net)
    (t hu w p : Rat) (a : String) (resp : HttpResponse)
    (hnet : net (predictRequest ⟨t, hu, w, p, a⟩) = .ok resp)
    (hst : isSuccess resp.status = false) :
    ∃ s, (get_weather_prediction net t hu w p a).1 = .error s ∧
      (statusDisplay resp.status).toList <:+: s.toList := by
  refine ⟨"API request failed with status: " ++ statusDisplay resp.status, ?_, ?_⟩
  · unfold get_weather_prediction
    simp [hnet, hst]
  · rw [string_toList_append]
    exact ⟨"API request failed with status: ".toList, [], by simp⟩

/-- C3 witness at status 500: the error text contains "500". -/
theorem non_success_status_error_witness :
    ∃ s, (get_weather_prediction (fun _ => .ok ⟨500, none⟩) 1 2 3 4 "hiking").1 =
      .error s ∧ ("500" : String).toList <:+: s.toList :=
  non_success_status_error (fun _ => .ok ⟨500, none⟩) 1 2 3 4 "hiking"
    ⟨500, none⟩ rfl rfl

/-- C4: `check_backend_health` returns the fixed confirmation string on any
success status, and on any non-success status an error string embedding the
decimal status code. -/
theorem health_status_mapping (net : Net) (resp : HttpResponse)
    (hnet : net healthRequest = .ok resp) :
    (isSuccess resp.status = true →
      (check_backend_health net).1 = .ok "Backend is running") ∧
    (isSuccess resp.status = false →
      ∃ s, (check_backend_health net).1 = .error s ∧
        (statusDisplay resp.status).toList <:+: s.toList) := by
  constructor
  · intro hs
    unfold check_backend_health
    simp [hnet, hs]
  · intro hs
    refine ⟨"Backend returned status: " ++ statusDisplay resp.status, ?_, ?_⟩
    · unfold check_backend_health
      simp [hnet, hs]
    · rw [string_toList_append]
      exact ⟨"Backend returned status: ".toList, [], by simp⟩

/-- C4 witness at statuses 200 and 503: the fixed success string on 200, and
an error text containing "503" on 503. -/
theorem health_status_mapping_witness :
    (check_backend_health (fun _ => .ok ⟨200, none⟩)).1 = .ok "Backend is running" ∧
    ∃ s, (check_backend_health (fun _ => .ok ⟨503, none⟩)).1 = .error s ∧
      ("503" : String).toList <:+: s.toList :=
  ⟨(health_status_mapping (fun _ => .ok ⟨200, none⟩) ⟨200, none⟩ rfl).1 rfl,
   (health_status_mapping (fun _ => .ok ⟨503, none⟩) ⟨503, none⟩ rfl).2 rfl⟩

/-- C10: every error string of `get_weather_prediction` starts with exactly
one of the three fixed heads — "Failed to send request: " for transport
failures, "API request failed with status: " for non-success statuses, and
"Failed to parse response: " for decode failures — so the caller can classify
the failure from the head alone. -/
theorem error_class_from_head (net : Net) (t hu w p : Rat) (a : String)
    (s : String)
    (h : (get_weather_prediction net t hu w p a).1 = .error s) :
    ("Failed to send request: ".toList <+: s.toList ∧
     ¬ "API request failed with status: ".toList <+: s.toList ∧
     ¬ "Failed to parse response: ".toList <+: s.toList) ∨
    (¬ "Failed to send request: ".toList <+: s.toList ∧
     "API request failed with status: ".toList <+: s.toList ∧
     ¬ "Failed to parse response: ".toList <+: s.toList) ∨
    (¬ "Failed to send request: ".toList <+: s.toList ∧
     ¬ "API request failed with status: ".toList <+: s.toList ∧
     "Failed to parse response: ".toList <+: s.toList) := by
  unfold get_weather_prediction at h
  rcases hn : net (predictRequest ⟨t, hu, w, p, a⟩) with resp | e
  · simp only [hn] at h
    cases hs : isSuccess resp.status
    · simp [hs] at h
      subst h
      refine Or.inr (Or.inl ⟨?_, ?_, ?_⟩)
      · rw [string_toList_append]
        exact not_prefix_append_of _ (by decide) (by decide)
      · rw [string_toList_append]
        exact List.prefix_append _ _
      · rw [string_toList_append]
        exact not_prefix_append_of _ (by decide) (by decide)
    · rcases hb : resp.respBody.bind decodeApiResponse with _ | api
      · simp [hs, hb] at h
        subst h
        refine Or.inr (Or.inr ⟨?_, ?_, ?_⟩) <;> decide
      · simp [hs, hb] at h
  · simp only [hn] at h
    simp at h
    subst h
    refine Or.inl ⟨?_, ?_, ?_⟩
    · rw [string_toList_append]
      exact List.prefix_append _ _
    · rw [string_toList_append]
      exact not_prefix_append_of _ (by decide) (by decide)
    · rw [string_toList_append]
      exact not_prefix_append_of _ (by decide) (by decide)

/-- C10 witness at a concrete transport failure. -/
theorem error_class_from_head_witness :
    ("Failed to send request: ".toList <+:
       "Failed to send request: timed out".toList ∧
     ¬ "API request failed with status: ".toList <+:
       "Failed to send request: timed out".toList ∧
     ¬ "Failed to parse response: ".toList <+:
       "Failed to send request: timed out".toList) ∨
    (¬ "Failed to send request: ".toList <+:
       "Failed to send request: timed out".toList ∧
     "API request failed with status: ".toList <+:
       "Failed to send request: timed out".toList ∧
     ¬ "Failed to parse response: ".toList <+:
       "Failed to send request: timed out".toList) ∨
    (¬ "Failed to send request: ".toList <+:
       "Failed to send request: timed out".toList ∧
     ¬ "API request failed with status: ".toList <+:
       "Failed to send request: timed out".toList ∧
     "Failed to parse response: ".toList <+:
       "Failed to send request: timed out".toList) :=
  error_class_from_head (fun _ => .err "timed out") 1 2 3 4 "hiking"
    "Failed to send request: timed out" rfl
